import Mathlib

/-!
Shallow embedding of the soraserver payment-order broker (Express + Razorpay).

The repository consists of several drafts of the same server.  We embed the
parts the claims are about:

* the HMAC-SHA256 / lowercase-hex signature primitive (Node `crypto`
  `createHmac('sha256', key).update(msg).digest('hex')`), implemented
  concretely over byte lists;
* the in-memory order store (`const ordersStore = new Map()`);
* the `/api/create-order` handler of the first draft (src/server.js 88-141);
* the `/api/verify-payment` handlers of the first draft
  (src/server.js 144-191), the second draft (src/server.js 340-390) and the
  final "FIXED VERSION" draft (src/server.js 533-652).

JavaScript conventions modelled explicitly: absent request fields are `none`;
string truthiness (`!s`) is falsity for `none` and `""`; numeric request
amounts are rationals and `Math.round` rounds half toward positive infinity.
-/

/-! ## SHA-256 over byte lists (bytes are `Nat` values below 256) -/

def w32 : Nat := 4294967296

def rotr (n x : Nat) : Nat := ((x >>> n) ||| (x <<< (32 - n))) % w32

/-- The 64 round constants of SHA-256 (FIPS 180-4), written in decimal. -/
def sha256K : List Nat :=
  [1116352408, 1899447441, 3049323471, 3921009573, 961987163,
   1508970993, 2453635748, 2870763221, 3624381080, 310598401,
   607225278, 1426881987, 1925078388, 2162078206, 2614888103,
   3248222580, 3835390401, 4022224774, 264347078, 604807628,
   770255983, 1249150122, 1555081692, 1996064986, 2554220882,
   2821834349, 2952996808, 3210313671, 3336571891, 3584528711,
   113926993, 338241895, 666307205, 773529912, 1294757372,
   1396182291, 1695183700, 1986661051, 2177026350, 2456956037,
   2730485921, 2820302411, 3259730800, 3345764771, 3516065817,
   3600352804, 4094571909, 275423344, 430227734, 506948616,
   659060556, 883997877, 958139571, 1322822218, 1537002063,
   1747873779, 1955562222, 2024104815, 2227730452, 2361852424,
   2428436474, 2756734187, 3204031479, 3329325298]

structure Sha256State where
  a : Nat
  b : Nat
  c : Nat
  d : Nat
  e : Nat
  f : Nat
  g : Nat
  h : Nat
deriving Repr, DecidableEq

/-- The initial hash value of SHA-256 (FIPS 180-4), written in decimal. -/
def sha256Init : Sha256State :=
  ⟨1779033703, 3144134277, 1013904242, 2773480762,
   1359893119, 2600822924, 528734635, 1541459225⟩

/-- Big-endian 32-bit words from a byte list (length a multiple of 4). -/
def toWords : List Nat → List Nat
  | b0 :: b1 :: b2 :: b3 :: rest => (((b0 * 256 + b1) * 256 + b2) * 256 + b3) :: toWords rest
  | _ => []

/-- Extend the 16-word message schedule by `n` further words. -/
def extendW (w : Array Nat) : Nat → Array Nat
  | 0 => w
  | n + 1 =>
      let i := w.size
      let x15 := w.getD (i - 15) 0
      let x2 := w.getD (i - 2) 0
      let s0 := rotr 7 x15 ^^^ rotr 18 x15 ^^^ (x15 >>> 3)
      let s1 := rotr 17 x2 ^^^ rotr 19 x2 ^^^ (x2 >>> 10)
      extendW (w.push ((w.getD (i - 16) 0 + s0 + w.getD (i - 7) 0 + s1) % w32)) n

def schedule (block : List Nat) : List Nat := (extendW (toWords block).toArray 48).toList

def sha256Round (st : Sha256State) (kw : Nat × Nat) : Sha256State :=
  let S1 := rotr 6 st.e ^^^ rotr 11 st.e ^^^ rotr 25 st.e
  let ch := (st.e &&& st.f) ^^^ ((st.e ^^^ 0xffffffff) &&& st.g)
  let temp1 := (st.h + S1 + ch + kw.1 + kw.2) % w32
  let S0 := rotr 2 st.a ^^^ rotr 13 st.a ^^^ rotr 22 st.a
  let maj := (st.a &&& st.b) ^^^ (st.a &&& st.c) ^^^ (st.b &&& st.c)
  let temp2 := (S0 + maj) % w32
  ⟨(temp1 + temp2) % w32, st.a, st.b, st.c, (st.d + temp1) % w32, st.e, st.f, st.g⟩

def sha256Compress (st : Sha256State) (block : List Nat) : Sha256State :=
  let t := (sha256K.zip (schedule block)).foldl sha256Round st
  ⟨(st.a + t.a) % w32, (st.b + t.b) % w32, (st.c + t.c) % w32, (st.d + t.d) % w32,
   (st.e + t.e) % w32, (st.f + t.f) % w32, (st.g + t.g) % w32, (st.h + t.h) % w32⟩

/-- The message bit length as eight big-endian bytes. -/
def lenBE8 (n : Nat) : List Nat :=
  [(n >>> 56) % 256, (n >>> 48) % 256, (n >>> 40) % 256, (n >>> 32) % 256,
   (n >>> 24) % 256, (n >>> 16) % 256, (n >>> 8) % 256, n % 256]

/-- SHA-256 padding: 0x80, zeros to 56 mod 64, then the 64-bit bit length. -/
def padBytes (msg : List Nat) : List Nat :=
  msg ++ 0x80 :: List.replicate ((119 - msg.length % 64) % 64) 0 ++ lenBE8 (8 * msg.length)

def chunksAux : Nat → List Nat → List (List Nat)
  | 0, _ => []
  | n + 1, l => l.take 64 :: chunksAux n (l.drop 64)

def toBytes4 (x : Nat) : List Nat := [(x >>> 24) % 256, (x >>> 16) % 256, (x >>> 8) % 256, x % 256]

def stateBytes (st : Sha256State) : List Nat :=
  toBytes4 st.a ++ toBytes4 st.b ++ toBytes4 st.c ++ toBytes4 st.d ++
  toBytes4 st.e ++ toBytes4 st.f ++ toBytes4 st.g ++ toBytes4 st.h

def sha256 (msg : List Nat) : List Nat :=
  let p := padBytes msg
  stateBytes ((chunksAux (p.length / 64) p).foldl sha256Compress sha256Init)

/-! ## HMAC-SHA256 and lowercase hex rendering -/

def hmacSha256 (key msg : List Nat) : List Nat :=
  let k0 := if 64 < key.length then sha256 key else key
  let kp := k0 ++ List.replicate (64 - k0.length) 0
  sha256 ((kp.map (fun b => b ^^^ 0x5c)) ++ sha256 ((kp.map (fun b => b ^^^ 0x36)) ++ msg))

def hexDigitChar (n : Nat) : Char := if n < 10 then Char.ofNat (48 + n) else Char.ofNat (87 + n)

def byteToHexChars (b : Nat) : List Char := [hexDigitChar ((b % 256) / 16), hexDigitChar (b % 16)]

def toHexString (l : List Nat) : String := ⟨l.flatMap byteToHexChars⟩

/-- UTF-8 encoding of a Unicode code point. -/
def utf8Bytes (n : Nat) : List Nat :=
  if n < 0x80 then [n]
  else if n < 0x800 then [0xc0 ||| (n >>> 6), 0x80 ||| (n &&& 0x3f)]
  else if n < 0x10000 then [0xe0 ||| (n >>> 12), 0x80 ||| ((n >>> 6) &&& 0x3f), 0x80 ||| (n &&& 0x3f)]
  else [0xf0 ||| (n >>> 18), 0x80 ||| ((n >>> 12) &&& 0x3f), 0x80 ||| ((n >>> 6) &&& 0x3f),
        0x80 ||| (n &&& 0x3f)]

/-- The UTF-8 byte sequence of a string (`.update(...)` hashes UTF-8 bytes). -/
def strBytes (s : String) : List Nat := s.data.flatMap (fun c => utf8Bytes c.toNat)

/-- Node `crypto.createHmac('sha256', key).update(msg).digest('hex')`. -/
def hmacSha256Hex (key msg : String) : String := toHexString (hmacSha256 (strBytes key) (strBytes msg))

/-! ## JavaScript value conventions -/

/-- Truthiness of an optional string field: `!s` holds for an absent field and
for the empty string. -/
def jsFalsyStr : Option String → Bool
  | none => true
  | some s => s == ""

/-- `s.trim() === ''`: the string contains only whitespace. -/
def trimEmpty (s : String) : Bool := s.data.all (fun c => c.isWhitespace)

/-- Truthiness of an optional numeric field: `!n` holds for an absent field and
for zero. -/
def jsFalsyNum : Option Rat → Bool
  | none => true
  | some q => q == 0

/-- `x || d` on string fields: the default replaces an absent or empty value. -/
def jsOrDefault (o : Option String) (d : String) : String :=
  match o with
  | none => d
  | some s => if s == "" then d else s

/-- JavaScript `Math.round`: round half toward positive infinity. -/
def jsRound (q : Rat) : Int := (q + 1 / 2).floor

/-! ## Order store (`const ordersStore = new Map()`) -/

structure Order where
  amount : Int
  currency : String
  receipt : String
  status : String
  payment_id : Option String := none
  created_at : Nat := 0
  verified_at : Option Nat := none
deriving Repr, DecidableEq

/-- The in-memory map, as an insertion-ordered association list. -/
abbrev Ledger := List (String × Order)

/-- `ordersStore.get(k)`. -/
def lget : Ledger → String → Option Order
  | [], _ => none
  | (k', v) :: rest, k => if k' == k then some v else lget rest k

/-- `ordersStore.has(k)`. -/
def lhas (st : Ledger) (k : String) : Bool := (lget st k).isSome

/-- `ordersStore.set(k, v)`: replace in place, or append a new binding.
In-place field mutation of a stored object is the same as `set` with the
updated record. -/
def lset : Ledger → String → Order → Ledger
  | [], k, v => [(k, v)]
  | (k', v') :: rest, k, v => if k' == k then (k', v) :: rest else (k', v') :: lset rest k v

/-! ## Requests, responses and the gateway dependency -/

/-- The JSON response produced by a handler.  `status` is the HTTP status
(`res.status(...)`, 200 when not set); fields absent from the JSON body are
`none`.  The gateway order descriptor echoed by create-order is represented by
its id in `orderId`; debug-only payloads are not modelled. -/
structure Resp where
  status : Nat
  success : Bool
  message : Option String := none
  error : Option String := none
  orderId : Option String := none
  paymentId : Option String := none
  verifiedAt : Option Nat := none
deriving Repr, DecidableEq

/-- Parsed body of a create-order request; a field the caller omitted is
`none`.  Amounts are JSON numbers, modelled as rationals. -/
structure CreateReq where
  amount : Option Rat
  currency : Option String
  receipt : Option String

/-- Parsed body of a verify-payment request. -/
structure VerifyReq where
  order_id : Option String
  payment_id : Option String
  signature : Option String

/-- A gateway-attached structured error (`error.error`), whose `description`
may itself be absent. -/
structure GwErr where
  description : Option String

/-- A JavaScript error thrown by the awaited gateway call. -/
structure JsError where
  gw : Option GwErr
  message : String

/-! ## `/api/create-order`, first draft (src/server.js lines 88-141)

`razorpayConfigured` models whether both gateway credentials were present at
startup; `gw` models the outcome the awaited `razorpay.orders.create(options)`
call would have (it is only reached when validation passes); `now` models
`Date.now()` / `new Date()`. -/

def createOrderA (razorpayConfigured : Bool) (gw : Except JsError String)
    (req : CreateReq) (st : Ledger) (now : Nat) : Resp × Ledger :=
  if !razorpayConfigured then
    ({ status := 500, success := false, message := some "Payment service not configured" }, st)
  else if jsFalsyNum req.amount || decide (req.amount.getD 0 < 1) then
    ({ status := 400, success := false, message := some "Invalid amount" }, st)
  else
    let optionsAmount : Int := jsRound (req.amount.getD 0 * 100)
    let optionsCurrency := jsOrDefault req.currency "INR"
    let optionsReceipt := jsOrDefault req.receipt ("rec_" ++ toString now)
    match gw with
    | .error e =>
        ({ status := 500, success := false, message := some "Failed to create order",
           error := match e.gw with
             | some g => g.description
             | none => some e.message }, st)
    | .ok oid =>
        ({ status := 200, success := true, orderId := some oid },
         lset st oid { amount := optionsAmount, currency := optionsCurrency,
                       receipt := optionsReceipt, status := "created", created_at := now })

/-! ## `/api/verify-payment`, first draft (src/server.js lines 144-191)

`hmac` is the cryptographic primitive (instantiated with `hmacSha256Hex`);
keeping it a parameter lets us state which paths never depend on it.
`secret` is `process.env.RAZORPAY_KEY_SECRET` (`none` when unset); this draft
substitutes the empty string for a missing secret (`|| ''`). -/

def verifyPaymentA (hmac : String → String → String) (secret : Option String)
    (req : VerifyReq) (st : Ledger) (now : Nat) : Resp × Ledger :=
  if jsFalsyStr req.order_id || jsFalsyStr req.payment_id || jsFalsyStr req.signature then
    ({ status := 400, success := false, message := some "Missing parameters" }, st)
  else
    let oid := req.order_id.getD ""
    let pid := req.payment_id.getD ""
    let sig := req.signature.getD ""
    let generated := hmac (secret.getD "") (oid ++ "|" ++ pid)
    if generated == sig then
      let st2 :=
        match lget st oid with
        | some o => lset st oid { o with status := "verified", payment_id := some pid,
                                         verified_at := some now }
        | none => st
      ({ status := 200, success := true, message := some "Payment verified successfully",
         orderId := some oid, paymentId := some pid }, st2)
    else
      ({ status := 400, success := false, message := some "Payment verification failed" }, st)

/-! ## `/api/verify-payment`, second draft (src/server.js lines 340-390)

This draft rejects before any cryptography when the secret is missing. -/

def verifyPaymentB (hmac : String → String → String) (secret : Option String)
    (req : VerifyReq) (st : Ledger) : Resp × Ledger :=
  if jsFalsyStr req.order_id || jsFalsyStr req.payment_id || jsFalsyStr req.signature then
    ({ status := 400, success := false,
       message := some "order_id, payment_id, and signature are required" }, st)
  else if jsFalsyStr secret then
    ({ status := 500, success := false, message := some "Server secret missing" }, st)
  else
    let oid := req.order_id.getD ""
    let pid := req.payment_id.getD ""
    let sig := req.signature.getD ""
    let generated := hmac (secret.getD "") (oid ++ "|" ++ pid)
    if generated == sig then
      let st2 :=
        match lget st oid with
        | some o => lset st oid { o with status := "verified", payment_id := some pid }
        | none => st
      ({ status := 200, success := true, message := some "Payment verified successfully" }, st2)
    else
      ({ status := 400, success := false,
         message := some "Invalid signature. Payment verification failed." }, st)

/-! ## `/api/verify-payment`, final "FIXED VERSION" draft (src/server.js lines 533-652)

Per-field validation with whitespace trimming, then the secret check, then the
signature comparison. -/

def verifyPaymentC (hmac : String → String → String) (secret : Option String)
    (req : VerifyReq) (st : Ledger) (now : Nat) : Resp × Ledger :=
  if jsFalsyStr req.order_id || trimEmpty (req.order_id.getD "") then
    ({ status := 400, success := false, message := some "Order ID is required" }, st)
  else if jsFalsyStr req.payment_id || trimEmpty (req.payment_id.getD "") then
    ({ status := 400, success := false, message := some "Payment ID is required" }, st)
  else if jsFalsyStr req.signature || trimEmpty (req.signature.getD "") then
    ({ status := 400, success := false, message := some "Signature is required" }, st)
  else if jsFalsyStr secret then
    ({ status := 500, success := false,
       message := some "Server configuration error. Please contact support." }, st)
  else
    let oid := req.order_id.getD ""
    let pid := req.payment_id.getD ""
    let sig := req.signature.getD ""
    let generated := hmac (secret.getD "") (oid ++ "|" ++ pid)
    if generated == sig then
      let st2 :=
        match lget st oid with
        | some o => lset st oid { o with status := "verified", payment_id := some pid,
                                         verified_at := some now }
        | none => st
      ({ status := 200, success := true, message := some "Payment verified successfully",
         orderId := some oid, paymentId := some pid, verifiedAt := some now }, st2)
    else
      ({ status := 400, success := false,
         message := some "Payment verification failed. Invalid signature." }, st)

/-! ## Shape of the rendered digest -/

theorem stateBytes_length (st : Sha256State) : (stateBytes st).length = 32 := rfl

theorem sha256_length (m : List Nat) : (sha256 m).length = 32 := stateBytes_length _

theorem hmacSha256_length (key msg : List Nat) : (hmacSha256 key msg).length = 32 :=
  sha256_length _

theorem flatMap_byteToHexChars_length (l : List Nat) :
    (l.flatMap byteToHexChars).length = 2 * l.length := by
  induction l with
  | nil => rfl
  | cons x xs ih =>
      simp only [List.flatMap_cons, List.length_append, ih, byteToHexChars,
        List.length_cons, List.length_nil, List.length_singleton]
      omega

theorem toHexString_length (l : List Nat) : (toHexString l).length = 2 * l.length := by
  have h : (toHexString l).length = (l.flatMap byteToHexChars).length := rfl
  rw [h, flatMap_byteToHexChars_length]

/-- The rendered signature is always exactly 64 characters. -/
theorem hmacSha256Hex_length (key msg : String) : (hmacSha256Hex key msg).length = 64 := by
  have h : hmacSha256Hex key msg = toHexString (hmacSha256 (strBytes key) (strBytes msg)) := rfl
  rw [h, toHexString_length, hmacSha256_length]

/-- A string whose length is not 64 can never equal a rendered signature. -/
theorem hmacSha256Hex_ne {s : String} (key msg : String) (h : s.length ≠ 64) :
    hmacSha256Hex key msg ≠ s := by
  intro he
  exact h (he ▸ hmacSha256Hex_length key msg)

/-- Lowercase-hexadecimal alphabet: `0`-`9` and `a`-`f`. -/
def isLowerHexChar (c : Char) : Bool :=
  (48 ≤ c.toNat && c.toNat ≤ 57) || (97 ≤ c.toNat && c.toNat ≤ 102)

theorem hexDigitChar_lowerHex : ∀ m, m < 16 → isLowerHexChar (hexDigitChar m) = true := by decide

theorem flatMap_byteToHexChars_all (l : List Nat) :
    (l.flatMap byteToHexChars).all isLowerHexChar = true := by
  induction l with
  | nil => rfl
  | cons x xs ih =>
      simp only [List.flatMap_cons, List.all_append, ih, Bool.and_true, byteToHexChars,
        List.all_cons, List.all_nil, Bool.and_eq_true]
      exact ⟨hexDigitChar_lowerHex (x % 256 / 16) (by omega),
             hexDigitChar_lowerHex (x % 16) (by omega)⟩

/-- Every character of the rendered digest is a lowercase hex digit. -/
theorem toHexString_lowerHex (l : List Nat) :
    (toHexString l).data.all isLowerHexChar = true := by
  have h : (toHexString l).data = l.flatMap byteToHexChars := rfl
  rw [h]
  exact flatMap_byteToHexChars_all l

theorem hmacSha256Hex_lowerHex (key msg : String) :
    (hmacSha256Hex key msg).data.all isLowerHexChar = true :=
  toHexString_lowerHex _

/-! ## Store lemmas -/

theorem lget_lset_self (st : Ledger) (k : String) (v : Order) :
    lget (lset st k v) k = some v := by
  induction st with
  | nil => simp [lset, lget]
  | cons p rest ih =>
      obtain ⟨k', v'⟩ := p
      by_cases h : k' = k
      · subst h; simp [lset, lget]
      · simp [lset, lget, beq_iff_eq, h, ih]

theorem lget_lset_ne (st : Ledger) {k k' : String} (h : k' ≠ k) (v : Order) :
    lget (lset st k v) k' = lget st k' := by
  induction st with
  | nil =>
      have hne : (k == k') = false := beq_eq_false_iff_ne.mpr (fun he => h he.symm)
      simp [lset, lget, hne]
  | cons p rest ih =>
      obtain ⟨k0, v0⟩ := p
      by_cases h0 : k0 = k
      · subst h0
        have hne : (k0 == k') = false := beq_eq_false_iff_ne.mpr (fun he => h he.symm)
        simp [lset, lget, hne]
      · simp [lset, lget, beq_iff_eq, h0, ih]

/-- The status values an Order record may legitimately carry. -/
def statusOK (o : Order) : Prop := o.status = "created" ∨ o.status = "verified"

instance (o : Order) : Decidable (statusOK o) := by unfold statusOK; infer_instance

/-- Invariant of the order store: every entry is `created` or `verified`. -/
def ledgerOK (st : Ledger) : Prop := ∀ p ∈ st, statusOK p.2

instance (st : Ledger) : Decidable (ledgerOK st) := by unfold ledgerOK; infer_instance

theorem ledgerOK_lset {st : Ledger} (h : ledgerOK st) {v : Order} (hv : statusOK v)
    (k : String) : ledgerOK (lset st k v) := by
  induction st with
  | nil =>
      intro p hp
      simp only [lset, List.mem_singleton] at hp
      subst hp; exact hv
  | cons q rest ih =>
      obtain ⟨k0, v0⟩ := q
      have hrest : ledgerOK rest := fun p hp => h p (List.mem_cons_of_mem _ hp)
      by_cases h0 : k0 = k
      · intro p hp
        simp only [lset, beq_iff_eq, h0, if_pos rfl] at hp
        rcases List.mem_cons.mp hp with he | hm
        · subst he; exact hv
        · exact h p (List.mem_cons_of_mem _ hm)
      · intro p hp
        simp only [lset, beq_iff_eq, h0, if_neg h0] at hp
        rcases List.mem_cons.mp hp with he | hm
        · subst he; exact h _ (List.mem_cons_self _ _)
        · exact ih hrest p hm

/-- Evaluation of the first-draft verify handler once all three parameters are
present and non-empty: the outcome is decided by the signature comparison. -/
theorem verifyPaymentA_nonempty (hmac : String → String → String) (sec : Option String)
    (oid pid sig : String) (st : Ledger) (now : Nat)
    (ho : oid ≠ "") (hp : pid ≠ "") (hg : sig ≠ "") :
    verifyPaymentA hmac sec ⟨some oid, some pid, some sig⟩ st now =
      if hmac (sec.getD "") (oid ++ "|" ++ pid) == sig then
        ({ status := 200, success := true, message := some "Payment verified successfully",
           orderId := some oid, paymentId := some pid },
         match lget st oid with
         | some o => lset st oid { o with status := "verified", payment_id := some pid,
                                          verified_at := some now }
         | none => st)
      else
        ({ status := 400, success := false, message := some "Payment verification failed" }, st) := by
  have h1 : (oid == "") = false := beq_eq_false_iff_ne.mpr ho
  have h2 : (pid == "") = false := beq_eq_false_iff_ne.mpr hp
  have h3 : (sig == "") = false := beq_eq_false_iff_ne.mpr hg
  simp only [verifyPaymentA, jsFalsyStr, h1, h2, h3, Bool.or_self, Bool.or_false,
    Option.getD_some, Bool.false_eq_true, if_false]

/-- C1: with all three parameters present and non-empty and the shared secret
configured, verification succeeds exactly when the claimed signature equals
the lowercase hexadecimal HMAC-SHA256 of `order_id + "|" + payment_id` keyed
by the secret, and any other submitted string is rejected with the 400
signature-mismatch response; the expected signature is a 64-character string
of lowercase hex digits. -/
theorem C1_signature_check (s oid pid sig : String) (st : Ledger) (now : Nat)
    (_hs : s ≠ "") (ho : oid ≠ "") (hp : pid ≠ "") (hg : sig ≠ "") :
    ((verifyPaymentA hmacSha256Hex (some s) ⟨some oid, some pid, some sig⟩ st now).1.success = true
        ↔ sig = hmacSha256Hex s (oid ++ "|" ++ pid))
    ∧ (sig ≠ hmacSha256Hex s (oid ++ "|" ++ pid) →
        (verifyPaymentA hmacSha256Hex (some s) ⟨some oid, some pid, some sig⟩ st now).1 =
          { status := 400, success := false, message := some "Payment verification failed" })
    ∧ (hmacSha256Hex s (oid ++ "|" ++ pid)).length = 64
    ∧ (hmacSha256Hex s (oid ++ "|" ++ pid)).data.all isLowerHexChar = true := by
  have he := verifyPaymentA_nonempty hmacSha256Hex (some s) oid pid sig st now ho hp hg
  simp only [Option.getD_some] at he
  by_cases hb : sig = hmacSha256Hex s (oid ++ "|" ++ pid)
  · have hbeq : (hmacSha256Hex s (oid ++ "|" ++ pid) == sig) = true := beq_iff_eq.mpr hb.symm
    simp only [hbeq, if_true] at he
    rw [he]
    exact ⟨iff_of_true rfl hb, fun hne => absurd hb hne,
           hmacSha256Hex_length _ _, hmacSha256Hex_lowerHex _ _⟩
  · have hbeq : (hmacSha256Hex s (oid ++ "|" ++ pid) == sig) = false :=
      beq_eq_false_iff_ne.mpr (fun h => hb h.symm)
    simp only [hbeq, Bool.false_eq_true, if_false] at he
    rw [he]
    exact ⟨iff_of_false Bool.false_ne_true hb, fun _ => rfl,
           hmacSha256Hex_length _ _, hmacSha256Hex_lowerHex _ _⟩

theorem C1_signature_check_witness :
    (("s3cr3t" : String) ≠ "" ∧ ("order_abc" : String) ≠ "" ∧ ("pay_123" : String) ≠ ""
      ∧ ("deadbeef" : String) ≠ "")
    ∧ (((verifyPaymentA hmacSha256Hex (some "s3cr3t")
          ⟨some "order_abc", some "pay_123", some "deadbeef"⟩ [] 0).1.success = true
        ↔ "deadbeef" = hmacSha256Hex "s3cr3t" ("order_abc" ++ "|" ++ "pay_123"))
      ∧ ("deadbeef" ≠ hmacSha256Hex "s3cr3t" ("order_abc" ++ "|" ++ "pay_123") →
          (verifyPaymentA hmacSha256Hex (some "s3cr3t")
            ⟨some "order_abc", some "pay_123", some "deadbeef"⟩ [] 0).1 =
            { status := 400, success := false, message := some "Payment verification failed" })
      ∧ (hmacSha256Hex "s3cr3t" ("order_abc" ++ "|" ++ "pay_123")).length = 64
      ∧ (hmacSha256Hex "s3cr3t" ("order_abc" ++ "|" ++ "pay_123")).data.all isLowerHexChar = true) :=
  ⟨⟨by decide, by decide, by decide, by decide⟩,
   C1_signature_check "s3cr3t" "order_abc" "pay_123" "deadbeef" [] 0
     (by decide) (by decide) (by decide) (by decide)⟩

/-- C2 counterexample: creating an order with amount 50000 and currency
omitted stores amount 5000000 (the handler multiplies by 100 and rounds), not
50000 as the claim states; the stored currency is "INR". -/
theorem C2_counterexample :
    (createOrderA true (.ok "order_x") ⟨some 50000, none, none⟩ [] 0).2 =
      [("order_x", { amount := 5000000, currency := "INR", receipt := "rec_0",
                     status := "created", created_at := 0 })]
    ∧ (5000000 : Int) ≠ 50000 := by
  have hr : jsRound ((50000 : Rat) * 100) = 5000000 := by norm_num [jsRound, Rat.floor]
  have h0 : ((50000 : Rat) == 0) = false := by decide
  have h1 : decide ((50000 : Rat) < 1) = false := by decide
  refine ⟨?_, by decide⟩
  simp only [createOrderA, jsFalsyNum, Option.getD_some, h0, h1, Bool.or_self,
    Bool.not_true, Bool.false_eq_true, if_false, hr]
  decide

/-- C2 (amended): when the amount passes validation and the gateway call
succeeds, the stored ledger amount equals `Math.round(amount * 100)` — the
request amount interpreted in major currency units and converted to the
smallest unit — and an omitted currency is stored as "INR"; so amount 50000
stores amount 5000000, not 50000. -/
theorem C2_amount_stored (a : Rat) (cur rcpt : Option String) (oid : String)
    (st : Ledger) (now : Nat) (ha : 1 ≤ a) :
    lget (createOrderA true (.ok oid) ⟨some a, cur, rcpt⟩ st now).2 oid =
      some { amount := jsRound (a * 100), currency := jsOrDefault cur "INR",
             receipt := jsOrDefault rcpt ("rec_" ++ toString now),
             status := "created", created_at := now } := by
  have h0 : ((a : Rat) == 0) = false := by
    refine beq_eq_false_iff_ne.mpr ?_
    rintro rfl
    exact absurd ha (by norm_num)
  have h1 : decide (a < 1) = false := decide_eq_false (not_lt.mpr ha)
  simp only [createOrderA, jsFalsyNum, Option.getD_some, h0, h1, Bool.not_true, Bool.or_self,
    Bool.false_eq_true, if_false]
  exact lget_lset_self st oid _

theorem C2_amount_stored_witness :
    (1 : Rat) ≤ 50000
    ∧ lget (createOrderA true (.ok "order_x") ⟨some 50000, none, none⟩ [] 0).2 "order_x" =
        some { amount := jsRound ((50000 : Rat) * 100), currency := jsOrDefault none "INR",
               receipt := jsOrDefault none ("rec_" ++ toString 0),
               status := "created", created_at := 0 } :=
  ⟨by decide, C2_amount_stored 50000 none none "order_x" [] 0 (by decide)⟩

/-- C3 counterexample: a mismatched signature for an order that is in the
store leaves the store completely unchanged — the entry keeps status
"created", no `verification_failed` value is ever written, and the Order
record has no attempts counter at all. -/
theorem C3_counterexample :
    (verifyPaymentA hmacSha256Hex (some "k") ⟨some "order_1", some "pay_1", some "x"⟩
        [("order_1", { amount := 5000000, currency := "INR", receipt := "r",
                       status := "created" })] 0).2 =
      [("order_1", { amount := 5000000, currency := "INR", receipt := "r",
                     status := "created" })]
    ∧ (verifyPaymentA hmacSha256Hex (some "k") ⟨some "order_1", some "pay_1", some "x"⟩
        [("order_1", { amount := 5000000, currency := "INR", receipt := "r",
                       status := "created" })] 0).1.status = 400
    ∧ ("created" : String) ≠ "verification_failed" := by
  have hne : hmacSha256Hex "k" ("order_1" ++ "|" ++ "pay_1") ≠ "x" :=
    hmacSha256Hex_ne _ _ (by decide)
  have hbeq : (hmacSha256Hex "k" ("order_1" ++ "|" ++ "pay_1") == "x") = false :=
    beq_eq_false_iff_ne.mpr hne
  have he := verifyPaymentA_nonempty hmacSha256Hex (some "k") "order_1" "pay_1" "x"
    [("order_1", { amount := 5000000, currency := "INR", receipt := "r",
                   status := "created" })] 0 (by decide) (by decide) (by decide)
  simp only [Option.getD_some, hbeq, Bool.false_eq_true, if_false] at he
  exact ⟨by rw [he], by rw [he], by decide⟩

/-- C3 (amended): on a signature mismatch the first-draft verify handler
leaves the order store entirely unchanged — no status transition occurs, no
attempts counter exists to be incremented — and the response is the fixed 400
client-error rejection. -/
theorem C3_mismatch_no_mutation (s oid pid sig : String) (st : Ledger) (now : Nat)
    (ho : oid ≠ "") (hp : pid ≠ "") (hg : sig ≠ "")
    (hm : sig ≠ hmacSha256Hex s (oid ++ "|" ++ pid)) :
    verifyPaymentA hmacSha256Hex (some s) ⟨some oid, some pid, some sig⟩ st now =
      ({ status := 400, success := false, message := some "Payment verification failed" }, st) := by
  have hbeq : (hmacSha256Hex s (oid ++ "|" ++ pid) == sig) = false :=
    beq_eq_false_iff_ne.mpr (fun h => hm h.symm)
  have he := verifyPaymentA_nonempty hmacSha256Hex (some s) oid pid sig st now ho hp hg
  simp only [Option.getD_some, hbeq, Bool.false_eq_true, if_false] at he
  exact he

theorem C3_mismatch_no_mutation_witness :
    verifyPaymentA hmacSha256Hex (some "k") ⟨some "order_1", some "pay_1", some "wrong"⟩
        [("order_1", { amount := 5000000, currency := "INR", receipt := "r",
                       status := "created" })] 7 =
      ({ status := 400, success := false, message := some "Payment verification failed" },
       [("order_1", { amount := 5000000, currency := "INR", receipt := "r",
                      status := "created" })]) :=
  C3_mismatch_no_mutation "k" "order_1" "pay_1" "wrong"
    [("order_1", { amount := 5000000, currency := "INR", receipt := "r",
                   status := "created" })] 7
    (by decide) (by decide) (by decide)
    (Ne.symm (hmacSha256Hex_ne _ _ (by decide)))

/-- C4 counterexample: verifying an order id that is absent from the store
does not produce an order-not-found rejection; with a correct signature the
handler replies 200 verified (and with any other signature it replies the
400 mismatch rejection).  The store is left unchanged either way. -/
theorem C4_counterexample :
    verifyPaymentA hmacSha256Hex (some "k")
        ⟨some "order_absent", some "pay_1",
         some (hmacSha256Hex "k" ("order_absent" ++ "|" ++ "pay_1"))⟩ [] 0 =
      ({ status := 200, success := true, message := some "Payment verified successfully",
         orderId := some "order_absent", paymentId := some "pay_1" }, []) := by
  have hg : hmacSha256Hex "k" ("order_absent" ++ "|" ++ "pay_1") ≠ "" :=
    hmacSha256Hex_ne _ _ (by decide)
  have he := verifyPaymentA_nonempty hmacSha256Hex (some "k") "order_absent" "pay_1"
    (hmacSha256Hex "k" ("order_absent" ++ "|" ++ "pay_1")) [] 0 (by decide) (by decide) hg
  simp only [Option.getD_some, beq_self_eq_true, if_true] at he
  rw [he]
  rfl

/-- C4 (amended): the verify flow never rejects for an unknown order id; when
the claimed order id is absent from the store the store is left unchanged (no
spurious entry is created) and the response is one of the three fixed
outcomes — missing-parameters, verified, or signature-mismatch — none of
which is an order-not-found rejection. -/
theorem C4_absent_order (hmac : String → String → String) (sec : Option String)
    (req : VerifyReq) (st : Ledger) (now : Nat)
    (habs : lget st (req.order_id.getD "") = none) :
    (verifyPaymentA hmac sec req st now).2 = st
    ∧ ((verifyPaymentA hmac sec req st now).1 =
          { status := 400, success := false, message := some "Missing parameters" }
       ∨ (verifyPaymentA hmac sec req st now).1.success = true
       ∨ (verifyPaymentA hmac sec req st now).1 =
          { status := 400, success := false, message := some "Payment verification failed" }) := by
  simp only [verifyPaymentA]
  split
  · simp
  · split
    · simp only [habs]
      simp
    · simp

theorem C4_absent_order_witness :
    lget ([] : Ledger) ((⟨some "o", some "p", some "x"⟩ : VerifyReq).order_id.getD "") = none
    ∧ ((verifyPaymentA hmacSha256Hex (some "k") ⟨some "o", some "p", some "x"⟩ [] 0).2 = []
      ∧ ((verifyPaymentA hmacSha256Hex (some "k") ⟨some "o", some "p", some "x"⟩ [] 0).1 =
            { status := 400, success := false, message := some "Missing parameters" }
         ∨ (verifyPaymentA hmacSha256Hex (some "k") ⟨some "o", some "p", some "x"⟩ [] 0).1.success = true
         ∨ (verifyPaymentA hmacSha256Hex (some "k") ⟨some "o", some "p", some "x"⟩ [] 0).1 =
            { status := 400, success := false, message := some "Payment verification failed" })) :=
  ⟨rfl, C4_absent_order hmacSha256Hex (some "k") ⟨some "o", some "p", some "x"⟩ [] 0 rfl⟩

/-- C5 counterexample: the below-minimum rejection carries only the fixed
message "Invalid amount" — which contains no digit at all, so it names
neither the minimum nor the received value (here 1/2) — and an amount of a
trillion passes validation: there is no maximum bound and no AmountTooLarge
rejection. -/
theorem C5_counterexample :
    createOrderA true (.ok "order_big") ⟨some (mkRat 1 2), none, none⟩ [] 0 =
      ({ status := 400, success := false, message := some "Invalid amount" }, [])
    ∧ ("Invalid amount".data.all (fun c => !c.isDigit)) = true
    ∧ (createOrderA true (.ok "order_big") ⟨some 1000000000000, none, none⟩ [] 0).1.success
        = true := by
  refine ⟨by decide, by decide, by decide⟩

/-- C5 (amended): an amount below 1 (or missing or zero) is rejected with the
fixed message "Invalid amount" — naming neither the bound nor the received
value — and no store entry is created; any amount of at least 1 passes
validation, so no upper bound is enforced and no AmountTooLarge rejection
exists. -/
theorem C5_amount_validation (a : Rat) (cur rcpt : Option String)
    (gw : Except JsError String) (st : Ledger) (now : Nat) :
    (a < 1 → createOrderA true gw ⟨some a, cur, rcpt⟩ st now =
        ({ status := 400, success := false, message := some "Invalid amount" }, st))
    ∧ (1 ≤ a → ∀ oid, (createOrderA true (.ok oid) ⟨some a, cur, rcpt⟩ st now).1.success = true)
    ∧ ("Invalid amount".data.all (fun c => !c.isDigit)) = true := by
  refine ⟨fun ha => ?_, fun ha oid => ?_, by decide⟩
  · have h1 : decide (a < 1) = true := decide_eq_true ha
    simp only [createOrderA, jsFalsyNum, Option.getD_some, h1, Bool.or_true, Bool.not_true,
      Bool.false_eq_true, if_false, if_true]
  · have h0 : ((a : Rat) == 0) = false := by
      refine beq_eq_false_iff_ne.mpr ?_
      rintro rfl
      exact absurd ha (by norm_num)
    have h1 : decide (a < 1) = false := decide_eq_false (not_lt.mpr ha)
    simp only [createOrderA, jsFalsyNum, Option.getD_some, h0, h1, Bool.or_self, Bool.not_true,
      Bool.false_eq_true, if_false]

theorem C5_amount_validation_witness :
    mkRat 1 2 < 1
    ∧ createOrderA true (.ok "o1") ⟨some (mkRat 1 2), none, none⟩ [] 0 =
        ({ status := 400, success := false, message := some "Invalid amount" }, []) :=
  ⟨by decide, (C5_amount_validation (mkRat 1 2) none none (.ok "o1") [] 0).1 (by decide)⟩

set_option maxRecDepth 1000000 in
/-- C6: on the failing input — secret unset, all three parameters present and
non-empty, signature equal to the HMAC of "order_abc|pay_123" under the
EMPTY-STRING substitute key — the first draft accepts the payment as
verified (it computes the HMAC with the `|| ''` fallback key), while the
later drafts reject with their 500 server-error responses, distinguishable
from the 400 caller errors, without ever consulting the HMAC primitive (a
degenerate primitive yields the same result). -/
theorem C6_missing_secret :
    verifyPaymentA hmacSha256Hex none
        ⟨some "order_abc", some "pay_123",
         some "e9b79da32a1c4583023d12e25da60a3ab4c9c28bde89fd1f1f3aa24e4880c7c2"⟩ [] 0 =
      ({ status := 200, success := true, message := some "Payment verified successfully",
         orderId := some "order_abc", paymentId := some "pay_123" }, [])
    ∧ verifyPaymentB hmacSha256Hex none
        ⟨some "order_abc", some "pay_123",
         some "e9b79da32a1c4583023d12e25da60a3ab4c9c28bde89fd1f1f3aa24e4880c7c2"⟩ [] =
      ({ status := 500, success := false, message := some "Server secret missing" }, [])
    ∧ verifyPaymentB (fun _ _ => "never evaluated") none
        ⟨some "order_abc", some "pay_123",
         some "e9b79da32a1c4583023d12e25da60a3ab4c9c28bde89fd1f1f3aa24e4880c7c2"⟩ [] =
      verifyPaymentB hmacSha256Hex none
        ⟨some "order_abc", some "pay_123",
         some "e9b79da32a1c4583023d12e25da60a3ab4c9c28bde89fd1f1f3aa24e4880c7c2"⟩ []
    ∧ verifyPaymentC hmacSha256Hex none
        ⟨some "order_abc", some "pay_123",
         some "e9b79da32a1c4583023d12e25da60a3ab4c9c28bde89fd1f1f3aa24e4880c7c2"⟩ [] 0 =
      ({ status := 500, success := false,
         message := some "Server configuration error. Please contact support." }, [])
    ∧ verifyPaymentC (fun _ _ => "never evaluated") none
        ⟨some "order_abc", some "pay_123",
         some "e9b79da32a1c4583023d12e25da60a3ab4c9c28bde89fd1f1f3aa24e4880c7c2"⟩ [] 0 =
      verifyPaymentC hmacSha256Hex none
        ⟨some "order_abc", some "pay_123",
         some "e9b79da32a1c4583023d12e25da60a3ab4c9c28bde89fd1f1f3aa24e4880c7c2"⟩ [] 0 := by
  refine ⟨by decide, by decide, by decide, by decide, by decide⟩

/-- C7: a whitespace-only signature is not "missing" to the first draft — it
passes the falsy check, the HMAC is computed and compared, and the reply is
the generic 400 mismatch naming no field — whereas the fixed final draft
trims it, rejects with "Signature is required" naming the field, and never
consults the HMAC primitive; the first draft also names no field for a
genuinely empty parameter, while the final draft names the field for an
empty signature. -/
theorem C7_trim_and_naming :
    (verifyPaymentA hmacSha256Hex (some "k") ⟨some "o", some "p", some " "⟩ [] 0).1 =
      { status := 400, success := false, message := some "Payment verification failed" }
    ∧ verifyPaymentC hmacSha256Hex (some "k") ⟨some "o", some "p", some " "⟩ [] 0 =
      ({ status := 400, success := false, message := some "Signature is required" }, [])
    ∧ verifyPaymentC (fun _ _ => "never evaluated") (some "k") ⟨some "o", some "p", some " "⟩ [] 0 =
      verifyPaymentC hmacSha256Hex (some "k") ⟨some "o", some "p", some " "⟩ [] 0
    ∧ (verifyPaymentA hmacSha256Hex (some "k") ⟨some "", some "p", some "x"⟩ [] 0).1 =
      { status := 400, success := false, message := some "Missing parameters" }
    ∧ (verifyPaymentC hmacSha256Hex (some "k") ⟨some "o", some "p", some ""⟩ [] 0).1 =
      { status := 400, success := false, message := some "Signature is required" } := by
  have hb : (hmacSha256Hex "k" ("o" ++ "|" ++ "p") == " ") = false :=
    beq_eq_false_iff_ne.mpr (hmacSha256Hex_ne _ _ (by decide))
  have he := verifyPaymentA_nonempty hmacSha256Hex (some "k") "o" "p" " " [] 0
    (by decide) (by decide) (by decide)
  simp only [Option.getD_some, hb, Bool.false_eq_true, if_false] at he
  exact ⟨by rw [he], by decide, by decide, by decide, by decide⟩

/-- C8: when the awaited gateway call fails, no store entry is created — the
store is returned unchanged — and the caller receives the 500 response whose
fixed message is generic and whose error field carries the gateway's
structured description when the gateway attached one, and the thrown error's
own message otherwise. -/
theorem C8_gateway_failure (e : JsError) (a : Rat) (cur rcpt : Option String)
    (st : Ledger) (now : Nat) (ha : 1 ≤ a) :
    createOrderA true (.error e) ⟨some a, cur, rcpt⟩ st now =
      ({ status := 500, success := false, message := some "Failed to create order",
         error := match e.gw with
           | some g => g.description
           | none => some e.message }, st) := by
  have h0 : ((a : Rat) == 0) = false := by
    refine beq_eq_false_iff_ne.mpr ?_
    rintro rfl
    exact absurd ha (by norm_num)
  have h1 : decide (a < 1) = false := decide_eq_false (not_lt.mpr ha)
  simp only [createOrderA, jsFalsyNum, Option.getD_some, h0, h1, Bool.or_self, Bool.not_true,
    Bool.false_eq_true, if_false]

theorem C8_gateway_failure_witness :
    (1 : Rat) ≤ 500
    ∧ createOrderA true (.error ⟨some ⟨some "Authentication failed"⟩, "Request failed"⟩)
        ⟨some 500, none, none⟩ [] 0 =
      ({ status := 500, success := false, message := some "Failed to create order",
         error := some "Authentication failed" }, []) :=
  ⟨by decide,
   C8_gateway_failure ⟨some ⟨some "Authentication failed"⟩, "Request failed"⟩ 500 none none [] 0
     (by decide)⟩

/-- C9: the verify-payment response is a function of the claimed identifiers,
the claimed signature and the configured secret alone — two arbitrary store
states (for instance one holding the order and one not holding it) produce
the identical response, in the first draft and in the final draft alike; the
store contents only determine which entry is mutated as a side effect. -/
theorem C9_response_independent_of_store (hmac : String → String → String)
    (sec : Option String) (req : VerifyReq) (st1 st2 : Ledger) (now : Nat) :
    (verifyPaymentA hmac sec req st1 now).1 = (verifyPaymentA hmac sec req st2 now).1
    ∧ (verifyPaymentC hmac sec req st1 now).1 = (verifyPaymentC hmac sec req st2 now).1 := by
  constructor
  · simp only [verifyPaymentA]
    split
    · rfl
    · split <;> rfl
  · simp only [verifyPaymentC]
    split
    · rfl
    · split
      · rfl
      · split
        · rfl
        · split
          · rfl
          · split <;> rfl

/-- C10: every store entry always carries status "created" or "verified":
create inserts entries with status "created" (conjunct 5) and preserves the
invariant (conjunct 1); verify preserves the invariant (conjunct 2) — the
only status it ever writes is "verified", and "verification_failed" is never
assigned; an entry already "verified" stays "verified" across any verify call
(conjunct 3) and is untouched by create when the gateway-minted id is fresh
(conjunct 4). -/
theorem C10_status_values :
    (∀ (cfg : Bool) (gw : Except JsError String) (req : CreateReq) (st : Ledger) (now : Nat),
      ledgerOK st → ledgerOK (createOrderA cfg gw req st now).2)
    ∧ (∀ (hmac : String → String → String) (sec : Option String) (req : VerifyReq)
        (st : Ledger) (now : Nat), ledgerOK st → ledgerOK (verifyPaymentA hmac sec req st now).2)
    ∧ (∀ (hmac : String → String → String) (sec : Option String) (req : VerifyReq)
        (st : Ledger) (now : Nat) (k : String) (o : Order),
        lget st k = some o → o.status = "verified" →
        ∃ o', lget (verifyPaymentA hmac sec req st now).2 k = some o'
          ∧ o'.status = "verified")
    ∧ (∀ (cfg : Bool) (gw : Except JsError String) (req : CreateReq) (st : Ledger) (now : Nat)
        (oid k : String) (o : Order),
        gw = Except.ok oid → lhas st oid = false → lget st k = some o →
        lget (createOrderA cfg gw req st now).2 k = some o)
    ∧ (∀ (a : Rat) (cur rcpt : Option String) (oid : String) (st : Ledger) (now : Nat),
        1 ≤ a →
        (lget (createOrderA true (.ok oid) ⟨some a, cur, rcpt⟩ st now).2 oid).map
            (fun o => o.status) = some "created") := by
  refine ⟨?_, ?_, ?_, ?_, ?_⟩
  · intro cfg gw req st now h
    simp only [createOrderA]
    split
    · exact h
    · split
      · exact h
      · split
        · exact h
        · exact ledgerOK_lset h (Or.inl rfl) _
  · intro hmac sec req st now h
    simp only [verifyPaymentA]
    split
    · exact h
    · split
      · split
        · exact ledgerOK_lset h (Or.inr rfl) _
        · exact h
      · exact h
  · intro hmac sec req st now k o hk hv
    simp only [verifyPaymentA]
    split
    · exact ⟨o, hk, hv⟩
    · split
      · cases hmatch : lget st (req.order_id.getD "") with
        | none =>
            simp only [hmatch]
            exact ⟨o, hk, hv⟩
        | some o1 =>
            simp only [hmatch]
            by_cases hko : k = req.order_id.getD ""
            · rw [hko]
              exact ⟨_, lget_lset_self st _ _, rfl⟩
            · refine ⟨o, ?_, hv⟩
              rw [lget_lset_ne st hko _]
              exact hk
      · exact ⟨o, hk, hv⟩
  · intro cfg gw req st now oid k o hgw hfresh hk
    subst hgw
    simp only [createOrderA]
    split
    · exact hk
    · split
      · exact hk
      · have hne : k ≠ oid := by
          intro he
          subst he
          simp only [lhas, hk, Option.isSome_some] at hfresh
          exact absurd hfresh (by decide)
        rw [lget_lset_ne st hne _]
        exact hk
  · intro a cur rcpt oid st now ha
    have h0 : ((a : Rat) == 0) = false := by
      refine beq_eq_false_iff_ne.mpr ?_
      rintro rfl
      exact absurd ha (by norm_num)
    have h1 : decide (a < 1) = false := decide_eq_false (not_lt.mpr ha)
    simp only [createOrderA, jsFalsyNum, Option.getD_some, h0, h1, Bool.or_self, Bool.not_true,
      Bool.false_eq_true, if_false, lget_lset_self]
    rfl

theorem C10_status_values_witness :
    ledgerOK [("a", { amount := 100, currency := "INR", receipt := "r", status := "created" })]
    ∧ ledgerOK (verifyPaymentA hmacSha256Hex (some "k") ⟨some "a", some "p", some "x"⟩
        [("a", { amount := 100, currency := "INR", receipt := "r", status := "created" })] 0).2 :=
  ⟨by decide,
   C10_status_values.2.1 hmacSha256Hex (some "k") ⟨some "a", some "p", some "x"⟩
     [("a", { amount := 100, currency := "INR", receipt := "r", status := "created" })] 0
     (by decide)⟩

